import Mathlib

/-!
Verification of the mock FHIR server core (`mock_fhir_server/mock_server.py`)
via a shallow embedding.  Resources are JSON-like documents; we model the
fields the server inspects (`resourceType`, `id`, `identifier`, `meta`) plus
an opaque bag of remaining scalar fields.  Wall-clock time and uuid
generation — the two injectable seams of the design — are modelled as a raw
ISO clock string and a fresh-id counter carried in the server state.
String helpers are re-implemented structurally over `List Char` (rather than
using `String.splitOn`/`String.replace`, whose well-founded recursion does
not reduce in the kernel) so that concrete witnesses evaluate by `decide`.
-/

namespace MockFHIR

/-- Splits a character list on a separator character, like Python
`str.split(sep)` for a one-character separator: `"a&b" ↦ ["a","b"]`,
`"" ↦ [""]`, `"&&" ↦ ["","",""]`. -/
def splitCharAux (sep : Char) : List Char → List (List Char)
  | [] => [[]]
  | c :: rest =>
    match splitCharAux sep rest with
    | [] => [[c]]
    | g :: gs => if c = sep then [] :: g :: gs else (c :: g) :: gs

/-- String wrapper for `splitCharAux`. -/
def splitChar (sep : Char) (s : String) : List String :=
  (splitCharAux sep s.data).map (fun cs => ⟨cs⟩)

/-- Splits at the first occurrence of `sep`, like Python `str.split(sep, 1)`
when `sep` occurs; `none` when it does not (the callers of `split(sep, 1)`
in the source always guard on `sep in s` first). -/
def splitFirstCharAux (sep : Char) : List Char → Option (List Char × List Char)
  | [] => none
  | c :: rest =>
    if c = sep then some ([], rest)
    else (splitFirstCharAux sep rest).map (fun p => (c :: p.1, p.2))

/-- String wrapper for `splitFirstCharAux`. -/
def splitFirstChar (sep : Char) (s : String) : Option (String × String) :=
  (splitFirstCharAux sep s.data).map (fun p => (⟨p.1⟩, ⟨p.2⟩))

/-- `sep in s` (Python membership test for a one-character needle). -/
def containsChar (sep : Char) (s : String) : Bool :=
  s.data.any (fun c => c = sep)

/-- Python `url.strip("/")`: drop leading and trailing slashes. -/
def stripSlashes (s : String) : String :=
  ⟨((s.data.dropWhile (fun c => c = '/')).reverse.dropWhile (fun c => c = '/')).reverse⟩

/-- Python `str.upper()`, for the ASCII method names the server compares. -/
def upperStr (s : String) : String :=
  ⟨s.data.map Char.toUpper⟩

/-- Hexadecimal digit value, for percent-decoding. -/
def hexVal (c : Char) : Option Nat :=
  if '0' ≤ c ∧ c ≤ '9' then some (c.toNat - '0'.toNat)
  else if 'a' ≤ c ∧ c ≤ 'f' then some (c.toNat - 'a'.toNat + 10)
  else if 'A' ≤ c ∧ c ≤ 'F' then some (c.toNat - 'A'.toNat + 10)
  else none

/-- ASCII fragment of `urllib.parse.unquote`: decode `%XY` hex escapes,
leave everything else (including a stray `%`) unchanged. -/
def percentDecodeAux : List Char → List Char
  | [] => []
  | '%' :: a :: b :: rest =>
    match hexVal a, hexVal b with
    | some x, some y => Char.ofNat (16 * x + y) :: percentDecodeAux rest
    | _, _ => '%' :: percentDecodeAux (a :: b :: rest)
  | c :: rest => c :: percentDecodeAux rest

/-- String wrapper for `percentDecodeAux`. -/
def percentDecode (s : String) : String :=
  ⟨percentDecodeAux s.data⟩

/-- Is `pat` a prefix of the text? -/
def isPrefixList : List Char → List Char → Bool
  | [], _ => true
  | _ :: _, [] => false
  | p :: ps, c :: cs => p = c && isPrefixList ps cs

/-- Fuel-driven replace-all: replaces non-overlapping occurrences of `pat`
(assumed non-empty) by `sub`, left to right, like Python `str.replace`.
The fuel is the text length, which each step strictly consumes. -/
def replaceFuel (pat sub : List Char) : Nat → List Char → List Char
  | 0, cs => cs
  | _ + 1, [] => []
  | n + 1, c :: rest =>
    if isPrefixList pat (c :: rest) then
      sub ++ replaceFuel pat sub n (List.drop (pat.length - 1) rest)
    else
      c :: replaceFuel pat sub n rest

/-- Models line 42 of the source: `isoformat().replace("+00:00", "Z")`,
turning a UTC offset suffix into zero-offset (Zulu) notation. -/
def zuluOf (iso : String) : String :=
  ⟨replaceFuel "+00:00".data "Z".data iso.data.length iso.data⟩

/-- Python `f"{x}"` on an optional string: `None` prints as `"None"`. -/
def optStr (o : Option String) : String :=
  o.getD "None"

/-- One entry of a resource's `identifier` list: a
`{system?: ..., value?: ...}` token. -/
structure Identifier where
  system : Option String := none
  value : Option String := none
deriving DecidableEq, Repr

/-- The `meta` block the server stamps onto every stored resource. -/
structure MetaBlock where
  versionId : String
  lastUpdated : String
deriving DecidableEq, Repr

/-- A JSON resource document, restricted to the fields the server inspects
plus an opaque association list of remaining scalar content fields. -/
structure ResourceData where
  resourceType : Option String := none
  id : Option String := none
  identifier : List Identifier := []
  meta : Option MetaBlock := none
  fields : List (String × String) := []
deriving DecidableEq, Repr

/-- A stored `MockFHIRResource`: the stamped document together with its
`self.id` attribute (always written back into the document as well). -/
structure StoredRes where
  rid : String
  data : ResourceData
deriving DecidableEq, Repr

/-- A JSON value submitted as a bundle entry's `resource`: either a mapping
(modelled by `ResourceData`) or a non-mapping value, whose attribute access
inside the handlers raises with the given message. -/
inductive ResourceVal where
  | obj (d : ResourceData)
  | bad (msg : String)
deriving DecidableEq, Repr

/-- One kind's partition: an insertion-ordered id-to-resource mapping
(Python dicts preserve insertion order; overwriting keeps the slot). -/
abbrev Partition := List (String × StoredRes)

/-- The store: kind (possibly `None`) to partition, insertion-ordered. -/
abbrev Store := List (Option String × Partition)

/-- Parsed search criteria: parameter name to accumulated raw values,
insertion-ordered (Python dict of lists). -/
abbrev Params := List (String × List String)

/-- The mock server's state.  `clock` is the raw `isoformat()` reading of
the injected UTC clock seam and `nextId` the injected uuid supply; both
sources of non-determinism are explicit per the design's seam requirement. -/
structure ServerState where
  baseUrl : String := "http://localhost:8080/fhir"
  store : Store := []
  clock : String := "2024-01-01T00:00:00+00:00"
  nextId : Nat := 0
deriving DecidableEq, Repr

/-- The operation-outcome dictionary the handlers return.  Keys that a given
handler omits (e.g. `created` on the multiple-matches outcome) are `none`. -/
structure Outcome where
  resourceType : String := "OperationOutcome"
  severity : String
  code : String
  diagnostics : List String := []
  location : Option String := none
  created_resource : Option ResourceData := none
  created : Option Bool := none
deriving DecidableEq, Repr

/-- Ordered lookup in a partition. -/
def lookupPart : Partition → String → Option StoredRes
  | [], _ => none
  | (k, v) :: rest, key => if k = key then some v else lookupPart rest key

/-- `store[id] = resource` on a partition: replace in place when the key
exists (keeping its slot), append otherwise — Python dict assignment. -/
def putPart : Partition → String → StoredRes → Partition
  | [], key, v => [(key, v)]
  | (k, w) :: rest, key, v =>
    if k = key then (key, v) :: rest else (k, w) :: putPart rest key v

/-- `_get_resource_store`, read side: a missing partition behaves as empty
(the source's lazy insertion of `{}` is unobservable through reads). -/
def storeGet : Store → Option String → Partition
  | [], _ => []
  | (k, p) :: rest, kind => if k = kind then p else storeGet rest kind

/-- Store a resource under `(kind, key)`, creating the partition if needed. -/
def storePut : Store → Option String → String → StoredRes → Store
  | [], kind, key, v => [(kind, [(key, v)])]
  | (k, p) :: rest, kind, key, v =>
    if k = kind then (k, putPart p key v) :: rest
    else (k, p) :: storePut rest kind key v

/-- Accumulate one `key=value` pair into the parameter map
(`params[key].append(value)`). -/
def addParam : Params → String → String → Params
  | [], k, v => [(k, [v])]
  | (k', vs) :: rest, k, v =>
    if k' = k then (k', vs ++ [v]) :: rest else (k', vs) :: addParam rest k v

/-- The loop body of `_parse_search_string`: pairs without `=` are dropped,
pairs with `=` split at the first `=`. -/
def parsePairs : Params → List String → Params
  | ps, [] => ps
  | ps, pair :: rest =>
    match splitFirstChar '=' pair with
    | some (k, v) => parsePairs (addParam ps k v) rest
    | none => parsePairs ps rest

/-- `MockFHIRServer._parse_search_string`: empty string parses to no
parameters; otherwise percent-decode, split on `&`, accumulate pairs. -/
def parseSearchString (q : String) : Params :=
  if q = "" then []
  else parsePairs [] (splitChar '&' (percentDecode q))

/-- Parse one identifier token: `system|value` (split at the first `|`)
or a bare `value` with no system part. -/
def parseIdentToken (t : String) : Option String × String :=
  match splitFirstChar '|' t with
  | some (sys, v) => (some sys, v)
  | none => (none, t)

/-- `MockFHIRServer._matches_identifier_search`: some submitted token has
some `identifier` entry with an equal `value` whose `system` matches when
the token carries one. -/
def matchesIdentifierSearch (r : ResourceData) (vals : List String) : Bool :=
  vals.any fun tok =>
    r.identifier.any fun ent =>
      ent.value == some (parseIdentToken tok).2 &&
      ((parseIdentToken tok).1.isNone || ent.system == (parseIdentToken tok).1)

/-- `MockFHIRServer._resource_matches_params`: every criteria key must be
`identifier` and satisfied; any other key rejects the resource. -/
def resourceMatchesParams (r : ResourceData) (ps : Params) : Bool :=
  ps.all fun p => p.1 == "identifier" && matchesIdentifierSearch r p.2

/-- `MockFHIRServer._search_by_params`: empty criteria return the whole
partition; otherwise filter it by `_resource_matches_params`. -/
def searchByParams (st : Store) (kind : Option String) (ps : Params) : List StoredRes :=
  let part := storeGet st kind
  if ps.isEmpty then part.map Prod.snd
  else (part.map Prod.snd).filter (fun r => resourceMatchesParams r.data ps)

/-- The injected uuid supply (`str(uuid.uuid4())` seam): always non-empty. -/
def freshId (n : Nat) : String :=
  "urn-uuid-" ++ toString n

/-- `MockFHIRResource.__init__` on a mapping input: extract `id`, generate a
fresh one when it is missing or falsy (`""`), write it back, and overwrite
`meta` with `versionId = "1"` and the Zulu-notation clock reading.  Returns
the stored record and the advanced uuid counter. -/
def stampData (d : ResourceData) (clock : String) (n : Nat) : StoredRes × Nat :=
  let stampedMeta : Option MetaBlock := some ⟨"1", zuluOf clock⟩
  match d.id with
  | some i =>
    if i = "" then
      (⟨freshId n, { d with id := some (freshId n), meta := stampedMeta }⟩, n + 1)
    else
      (⟨i, { d with id := some i, meta := stampedMeta }⟩, n)
  | none =>
    (⟨freshId n, { d with id := some (freshId n), meta := stampedMeta }⟩, n + 1)

/-- The record `create_resource` would stamp and store in state `s`. -/
def stampedData (s : ServerState) (d : ResourceData) : StoredRes :=
  (stampData d s.clock s.nextId).1

/-- The `location` string of the create outcome
(`f"{base_url}/{resource_type}/{id}"`; a missing type prints as `None`). -/
def locationOf (base : String) (rt : Option String) (rid : String) : String :=
  base ++ "/" ++ optStr rt ++ "/" ++ rid

/-- `MockFHIRServer.create_resource`: stamp, store under the document's own
`resourceType` and stamped id, return an informational outcome with
`created = True`. -/
def create_resource (s : ServerState) (d : ResourceData) : Outcome × ServerState :=
  let r := stampData d s.clock s.nextId
  let res := r.1
  ({ severity := "information"
     code := "informational"
     diagnostics := ["Resource " ++ optStr res.data.resourceType ++ "/" ++ res.rid ++ " ",
                     "created successfully"]
     location := some (locationOf s.baseUrl res.data.resourceType res.rid)
     created_resource := some res.data
     created := some true },
   { s with store := storePut s.store res.data.resourceType res.rid res, nextId := r.2 })

/-- `MockFHIRServer.update_resource`: force the payload's id to `ridArg`,
stamp, record prior existence under `ridArg`, overwrite that slot, and
return `created = not existed`. -/
def update_resource (s : ServerState) (rt : String) (ridArg : String)
    (d : ResourceData) : Outcome × ServerState :=
  let r := stampData { d with id := some ridArg } s.clock s.nextId
  let res := r.1
  let existsBefore := (lookupPart (storeGet s.store (some rt)) ridArg).isSome
  ({ severity := "information"
     code := "informational"
     diagnostics := ["Resource " ++ rt ++ "/" ++ ridArg,
                     (if existsBefore then "updated" else "created") ++ " successfully"]
     location := some (s.baseUrl ++ "/" ++ rt ++ "/" ++ ridArg)
     created_resource := some res.data
     created := some (!existsBefore) },
   { s with store := storePut s.store (some rt) ridArg res, nextId := r.2 })

/-- `MockFHIRServer.conditional_create`: search the payload's kind with the
`If-None-Exist` criteria; any match returns the first one unchanged with
`created = False` and no mutation; no match delegates to `create_resource`. -/
def conditional_create (s : ServerState) (d : ResourceData)
    (ifNoneExist : String) : Outcome × ServerState :=
  match searchByParams s.store d.resourceType (parseSearchString ifNoneExist) with
  | [] => create_resource s d
  | e :: _ =>
    ({ severity := "information"
       code := "informational"
       diagnostics := ["Resource already exists, not created"]
       location := some (locationOf s.baseUrl d.resourceType e.rid)
       created_resource := some e.data
       created := some false }, s)

/-- The error outcome `conditional_update` returns on an ambiguous match;
it carries no `location`, `created_resource` or `created` key. -/
def multiMatchOutcome (n : Nat) : Outcome :=
  { severity := "error"
    code := "multiple-matches"
    diagnostics := ["Multiple resources match the search criteria:",
                    toString n ++ " found"] }

/-- `MockFHIRServer.conditional_update`: 0 matches create (forcing
`created = True`), exactly 1 match updates at the match's id (forcing
`created = False`), 2 or more matches return the error outcome untouched. -/
def conditional_update (s : ServerState) (rt : String) (d : ResourceData)
    (criteria : String) : Outcome × ServerState :=
  match searchByParams s.store (some rt) (parseSearchString criteria) with
  | [] =>
    let r := create_resource s d
    ({ r.1 with created := some true }, r.2)
  | [e] =>
    let r := update_resource s rt e.rid d
    ({ r.1 with created := some false }, r.2)
  | es => (multiMatchOutcome es.length, s)

/-- `MockFHIRServer.read_resource` (dictionary form): the stored document
at `(kind, id)`, if any. -/
def read_resource (s : ServerState) (rt : Option String) (rid : String) :
    Option ResourceData :=
  (lookupPart (storeGet s.store rt) rid).map StoredRes.data

/-- `create_resource` on a bundle entry's raw resource value: a non-mapping
value raises (`.get` attribute access) before any mutation. -/
def create_resourceE (s : ServerState) : ResourceVal → Except String (Outcome × ServerState)
  | .obj d => .ok (create_resource s d)
  | .bad msg => .error msg

/-- `update_resource` on a raw resource value: a non-mapping value raises
(setting `.id`) before any mutation. -/
def update_resourceE (s : ServerState) (rt ridArg : String) :
    ResourceVal → Except String (Outcome × ServerState)
  | .obj d => .ok (update_resource s rt ridArg d)
  | .bad msg => .error msg

/-- `conditional_create` on a raw resource value: reading `resourceType`
off a non-mapping value raises before the search. -/
def conditional_createE (s : ServerState) (v : ResourceVal) (ifNoneExist : String) :
    Except String (Outcome × ServerState) :=
  match v with
  | .obj d => .ok (conditional_create s d ifNoneExist)
  | .bad msg => .error msg

/-- `conditional_update` on a raw resource value: the search runs first, so
an ambiguous match returns its error outcome without ever touching the
payload; the 0- and 1-match branches raise on a non-mapping payload. -/
def conditional_updateE (s : ServerState) (rt : String) (v : ResourceVal)
    (criteria : String) : Except String (Outcome × ServerState) :=
  match searchByParams s.store (some rt) (parseSearchString criteria) with
  | [] =>
    (create_resourceE s v).map (fun r => ({ r.1 with created := some true }, r.2))
  | [e] =>
    (update_resourceE s rt e.rid v).map (fun r => ({ r.1 with created := some false }, r.2))
  | es => .ok (multiMatchOutcome es.length, s)

/-- One bundle entry after JSON field defaulting: `entry.get("request", {})`
with `method`/`url`/`ifNoneExist` lookups and `entry.get("resource", {})`. -/
structure BundleEntry where
  method : Option String := none
  url : String := ""
  ifNoneExist : Option String := none
  resource : ResourceVal := .obj {}
deriving DecidableEq, Repr

/-- One entry of the response bundle (`response.status/location/outcome`);
error entries carry no `location` key. -/
structure BundleResponse where
  status : String
  location : Option String := none
  outcome : Outcome
deriving DecidableEq, Repr

/-- A submitted bundle: its `type` tag (defaulted to `collection` when
missing) and its ordered entries. -/
structure BundleRequest where
  type : Option String := none
  entries : List BundleEntry := []
deriving DecidableEq, Repr

/-- The response bundle `process_bundle` assembles. -/
structure BundleResult where
  resourceType : String
  type : String
  entries : List BundleResponse
deriving DecidableEq, Repr

/-- The `400 Bad Request` outcome for a PUT entry whose url has neither an
id segment nor a query. -/
def invalidUrlOutcome (url : String) : Outcome :=
  { severity := "error"
    code := "invalid"
    diagnostics := ["Invalid URL ", "format: " ++ url] }

/-- The `404 Not Found` outcome for an entry whose method is not POST/PUT. -/
def notSupportedOutcome (method : String) : Outcome :=
  { severity := "error"
    code := "not-supported"
    diagnostics := ["Method " ++ method ++ " not ", "supported"] }

/-- The `500 Internal Server Error` outcome produced by the per-entry
exception handler, carrying the failure's message. -/
def exceptionOutcome (msg : String) : Outcome :=
  { severity := "error"
    code := "exception"
    diagnostics := ["Error processing entry:", msg] }

/-- `url.split("?", 1)[1]`, evaluated only under the `"?" in url` guard. -/
def afterFirstQ (url : String) : String :=
  match splitFirstChar '?' url with
  | some p => p.2
  | none => ""

/-- The body of `process_bundle`'s `try` block for one entry: dispatch on
the (upper-cased, GET-defaulted) method.  PUT splits the raw url on `/`
after stripping slashes; a url containing `?` goes to the conditional
update with everything after the first `?` as criteria (note: the kind
passed along is the first `/`-segment of the raw url, query included, when
the url has no slash); otherwise a two-segment url is a direct update and
anything shorter is a `400`.  Non-POST/PUT methods yield a `404`. -/
def tryProcessEntry (s : ServerState) (e : BundleEntry) :
    Except String (BundleResponse × ServerState) :=
  let method := upperStr (e.method.getD "GET")
  if method = "POST" then
    if e.ifNoneExist.getD "" ≠ "" then
      (conditional_createE s e.resource (e.ifNoneExist.getD "")).map (fun r =>
        ({ status := if r.1.created.getD true then "201 Created" else "200 OK"
           location := r.1.location, outcome := r.1 }, r.2))
    else
      (create_resourceE s e.resource).map (fun r =>
        ({ status := "201 Created", location := r.1.location, outcome := r.1 }, r.2))
  else if method = "PUT" then
    let parts := splitChar '/' (stripSlashes e.url)
    let rt := parts.headD ""
    if containsChar '?' e.url then
      (conditional_updateE s rt e.resource (afterFirstQ e.url)).map (fun r =>
        ({ status := if r.1.created.getD false then "201 Created" else "200 OK"
           location := r.1.location, outcome := r.1 }, r.2))
    else if 2 ≤ parts.length then
      (update_resourceE s rt (parts.getD 1 "") e.resource).map (fun r =>
        ({ status := if r.1.created.getD false then "201 Created" else "200 OK"
           location := r.1.location, outcome := r.1 }, r.2))
    else
      .ok ({ status := "400 Bad Request", outcome := invalidUrlOutcome e.url }, s)
  else
    .ok ({ status := "404 Not Found", outcome := notSupportedOutcome method }, s)

/-- One loop iteration of `process_bundle`: the `try`/`except` wrapper that
turns any raised failure into a `500` entry, leaving the state as the
failed handler left it (no handler mutates before raising). -/
def processEntry (s : ServerState) (e : BundleEntry) : BundleResponse × ServerState :=
  match tryProcessEntry s e with
  | .ok r => r
  | .error msg =>
    ({ status := "500 Internal Server Error", outcome := exceptionOutcome msg }, s)

/-- The sequential entry loop: one response per entry, in submission order,
threading the store state left to right. -/
def processEntries : ServerState → List BundleEntry → List BundleResponse × ServerState
  | s, [] => ([], s)
  | s, e :: rest =>
    let r := processEntry s e
    let rs := processEntries r.2 rest
    (r.1 :: rs.1, rs.2)

/-- `MockFHIRServer.process_bundle`: run every entry and assemble a
`{type}-response` bundle of the per-entry responses. -/
def process_bundle (s : ServerState) (b : BundleRequest) : BundleResult × ServerState :=
  let rs := processEntries s b.entries
  ({ resourceType := "Bundle"
     type := b.type.getD "collection" ++ "-response"
     entries := rs.1 }, rs.2)

/-- The `PUT /Kind?criteria` branch of `_handle_request` (after routing):
run the conditional update and pick the numeric status from
`result.get("created", False)`. -/
def handlePutConditionalUpdate (s : ServerState) (rt : String) (d : ResourceData)
    (query : String) : Nat × Outcome × ServerState :=
  let r := conditional_update s rt d query
  ((if r.1.created.getD false then 201 else 200), r.1, r.2)

/-- A `sysA|V` identifier token used by the concrete witnesses. -/
def identA : Identifier := { system := some "sysA", value := some "V" }

/-- A Patient payload carrying `identA` and no id. -/
def patientA : ResourceData := { resourceType := some "Patient", identifier := [identA] }

/-- A stored-shape Patient with id `p1` and `identA`. -/
def patient1 : ResourceData :=
  { resourceType := some "Patient", id := some "p1", identifier := [identA] }

/-- A stored-shape Patient with id `p2` and `identA`. -/
def patient2 : ResourceData :=
  { resourceType := some "Patient", id := some "p2", identifier := [identA] }

/-- A payload with distinguishing content, for update witnesses. -/
def patientB : ResourceData :=
  { resourceType := some "Patient", fields := [("gender", "male")] }

/-- `patient1` as a stored record. -/
def stored1 : StoredRes := ⟨"p1", patient1⟩

/-- `patient2` as a stored record. -/
def stored2 : StoredRes := ⟨"p2", patient2⟩

/-- A freshly constructed server. -/
def initState : ServerState := {}

/-- A server whose Patient partition holds one resource matching `identA`. -/
def oneMatchState : ServerState :=
  { store := [(some "Patient", [("p1", stored1)])] }

/-- A server whose Patient partition holds two resources matching `identA`. -/
def twoMatchState : ServerState :=
  { store := [(some "Patient", [("p1", stored1), ("p2", stored2)])] }

/-- A payload whose id collides with `stored1` but whose content differs,
for the silent-overwrite witness. -/
def patient1b : ResourceData :=
  { resourceType := some "Patient", id := some "p1", fields := [("gender", "male")] }

/-- A batch bundle holding a single GET search entry. -/
def getBundle : BundleRequest :=
  { type := some "batch"
    entries := [{ method := some "GET", url := "Patient?identifier=sysA|V" }] }

theorem freshId_ne_empty (n : Nat) : freshId n ≠ "" := by
  intro h
  have h2 : ("urn-uuid-" ++ toString n).data = ([] : List Char) :=
    congrArg String.data h
  rw [String.data_append] at h2
  exact absurd (List.append_eq_nil.mp h2).1 (by decide)

theorem stampData_resourceType (d : ResourceData) (clock : String) (n : Nat) :
    (stampData d clock n).1.data.resourceType = d.resourceType := by
  unfold stampData
  cases d.id <;> simp
  split <;> rfl

theorem lookupPart_putPart_self (p : Partition) (k : String) (v : StoredRes) :
    lookupPart (putPart p k v) k = some v := by
  induction p with
  | nil => simp [putPart, lookupPart]
  | cons a rest ih =>
    obtain ⟨k', w⟩ := a
    by_cases h : k' = k
    · simp [putPart, lookupPart, h]
    · simp [putPart, lookupPart, h, ih]

theorem storeGet_storePut_self (st : Store) (kind : Option String) (k : String)
    (v : StoredRes) :
    storeGet (storePut st kind k v) kind = putPart (storeGet st kind) k v := by
  induction st with
  | nil => simp [storePut, storeGet, putPart]
  | cons a rest ih =>
    obtain ⟨k0, p⟩ := a
    by_cases h : k0 = kind
    · simp [storePut, storeGet, h]
    · simp [storePut, storeGet, h, ih]

theorem filter_map_putPart (p : Partition) (k : String) (v : StoredRes)
    (pred : StoredRes → Bool)
    (h : ∀ x ∈ p.map Prod.snd, pred x = false) (hv : pred v = true) :
    ((putPart p k v).map Prod.snd).filter pred = [v] := by
  induction p with
  | nil => simp [putPart, hv]
  | cons a rest ih =>
    obtain ⟨k', w⟩ := a
    by_cases hk : k' = k
    · have htail : (rest.map Prod.snd).filter pred = [] :=
        List.filter_eq_nil_iff.mpr (fun x hx => by
          simp [h x (by simp [hx])])
      simp [putPart, hk, hv, htail]
    · have hw : pred w = false := h w (by simp)
      have ih2 := ih (fun x hx => h x (by simp; right; simpa using hx))
      simp [putPart, hk, hw, ih2]

theorem searchByParams_putSelf (st : Store) (kind : Option String) (k : String)
    (v : StoredRes) (ps : Params)
    (h0 : searchByParams st kind ps = [])
    (hv : resourceMatchesParams v.data ps = true) :
    searchByParams (storePut st kind k v) kind ps = [v] := by
  unfold searchByParams at h0 ⊢
  rw [storeGet_storePut_self]
  by_cases hps : ps.isEmpty
  · simp only [hps, if_true] at h0 ⊢
    have hpart : storeGet st kind = [] := by
      cases hp : storeGet st kind with
      | nil => rfl
      | cons a l => rw [hp] at h0; simp at h0
    rw [hpart]
    simp [putPart]
  · simp only [hps, if_false, Bool.false_eq_true] at h0 ⊢
    exact filter_map_putPart _ _ _ _
      (fun x hx => by
        have := List.filter_eq_nil_iff.mp h0 x hx
        simpa using this)
      hv

theorem processEntries_length (es : List BundleEntry) :
    ∀ s : ServerState, (processEntries s es).1.length = es.length := by
  induction es with
  | nil => intro s; rfl
  | cons e rest ih => intro s; simp [processEntries, ih]

theorem processEntries_append (pre post : List BundleEntry) :
    ∀ s : ServerState,
      processEntries s (pre ++ post) =
        ((processEntries s pre).1 ++ (processEntries (processEntries s pre).2 post).1,
         (processEntries (processEntries s pre).2 post).2) := by
  induction pre with
  | nil => intro s; simp [processEntries]
  | cons e rest ih => intro s; simp [processEntries, ih]

theorem update_readback (s : ServerState) (rt ridArg : String) (d : ResourceData)
    (h : ridArg ≠ "") :
    read_resource (update_resource s rt ridArg d).2 (some rt) ridArg =
      some { d with id := some ridArg
                    meta := some { versionId := "1", lastUpdated := zuluOf s.clock } } := by
  simp [read_resource, update_resource, stampData, h,
        storeGet_storePut_self, lookupPart_putPart_self]

/-- C4: a resource submitted to `create_resource` without an `id` is stored
with the non-empty generated id, and every submitted resource's stored
`meta` block is overwritten to `versionId = "1"` with the Zulu-notation UTC
clock reading as `lastUpdated`, regardless of caller-supplied meta. -/
theorem create_resource_stamps (s : ServerState) (d : ResourceData) :
    (create_resource s d).1.created_resource = some (stampedData s d).data ∧
    (stampedData s d).data.meta =
      some { versionId := "1", lastUpdated := zuluOf s.clock } ∧
    (d.id = none →
      (stampedData s d).data.id = some (freshId s.nextId) ∧ freshId s.nextId ≠ "") := by
  refine ⟨rfl, ?_, fun h => ?_⟩
  · unfold stampedData stampData
    cases d.id with
    | none => rfl
    | some i =>
      by_cases hi : i = "" <;> simp [hi]
  · unfold stampedData stampData
    rw [h]
    exact ⟨rfl, freshId_ne_empty s.nextId⟩

/-- C4 witness: creating a Patient without an id in a fresh server stores
it under the generated non-empty id `urn-uuid-0`. -/
theorem create_resource_stamps_witness :
    (stampedData initState patientA).data.id = some (freshId 0) ∧ freshId 0 ≠ "" :=
  (create_resource_stamps initState patientA).2.2 rfl

/-- C10: `create_resource` never fails (its raw-value wrapper succeeds on
every mapping payload), always answers `created = true` with an
informational outcome, and silently overwrites any existing record stored
under the payload's `(resourceType, id)` key — the read-back after the call
is the freshly stamped payload no matter what was there before. -/
theorem create_resource_total (s : ServerState) (d : ResourceData) :
    create_resourceE s (ResourceVal.obj d) = Except.ok (create_resource s d) ∧
    (create_resource s d).1.created = some true ∧
    (create_resource s d).1.severity = "information" ∧
    (∀ i, d.id = some i → i ≠ "" →
      read_resource (create_resource s d).2 d.resourceType i =
        some (stampedData s d).data) := by
  refine ⟨rfl, rfl, rfl, fun i h hne => ?_⟩
  simp [read_resource, create_resource, stampedData, stampData, h, hne,
        storeGet_storePut_self, lookupPart_putPart_self]

/-- C10 witness: creating `patient1b`, whose id `p1` already names a stored
Patient, overwrites that record without any error outcome. -/
theorem create_resource_total_witness :
    read_resource (create_resource oneMatchState patient1b).2 (some "Patient") "p1" =
      some (stampedData oneMatchState patient1b).data :=
  (create_resource_total oneMatchState patient1b).2.2.2 "p1" rfl (by decide)

/-- C5 counterexample: calling `update_resource` with the empty target id
`X = ""` stores a record whose id is the generated uuid, not `X` — the
Python truthiness check `if not self.id` regenerates falsy ids, so the
claim's "stored record's id equals X" fails at `X = ""`. -/
theorem update_resource_empty_id_cex :
    (read_resource (update_resource initState "Patient" "" patientA).2
        (some "Patient") "").map ResourceData.id = some (some "urn-uuid-0") ∧
    some (some "urn-uuid-0") ≠ (some (some "") : Option (Option String)) :=
  ⟨by decide, by decide⟩

/-- C5 (amended to non-empty target ids): for every `update_resource(kind,
X, payload)` call with `X ≠ ""`, the stored record is exactly the stamped
payload with `id = X` (full replacement, no merging), the `created` flag is
`true` iff no record with id `X` existed in that kind's partition before
the call, and a second update with a different payload keeps `id = X` and
reflects only the second payload. -/
theorem update_resource_correct (s : ServerState) (rt ridArg : String)
    (d : ResourceData) (h : ridArg ≠ "") :
    read_resource (update_resource s rt ridArg d).2 (some rt) ridArg =
      some { d with id := some ridArg
                    meta := some { versionId := "1", lastUpdated := zuluOf s.clock } } ∧
    ((update_resource s rt ridArg d).1.created = some true ↔
      read_resource s (some rt) ridArg = none) ∧
    (∀ d2, read_resource
        (update_resource (update_resource s rt ridArg d).2 rt ridArg d2).2
        (some rt) ridArg =
      some { d2 with id := some ridArg
                     meta := some { versionId := "1", lastUpdated := zuluOf s.clock } }) := by
  refine ⟨update_readback s rt ridArg d h, ?_, fun d2 => ?_⟩
  · simp only [update_resource, read_resource]
    cases hl : lookupPart (storeGet s.store (some rt)) ridArg <;> simp [hl]
  · have h2 := update_readback (update_resource s rt ridArg d).2 rt ridArg d2 h
    have hclock : (update_resource s rt ridArg d).2.clock = s.clock := rfl
    rw [hclock] at h2
    exact h2

/-- C5 witness: a direct update at the non-empty id `p9` stores the stamped
payload with `id = p9`. -/
theorem update_resource_correct_witness :
    read_resource (update_resource initState "Patient" "p9" patientB).2
        (some "Patient") "p9" =
      some { patientB with
             id := some "p9"
             meta := some { versionId := "1", lastUpdated := zuluOf initState.clock } } :=
  (update_resource_correct initState "Patient" "p9" patientB (by decide)).1

/-- C1: `conditional_update` resolves its criteria by the stored-resource
search — 0 matches create with `created = true`, exactly 1 match updates at
the match's id with `created = false`, and 2 or more matches return the
`multiple-matches` error outcome with the store (and hence every `(kind,
id)` read-back) unchanged. -/
theorem conditional_update_cases (s : ServerState) (rt : String)
    (d : ResourceData) (c : String) :
    (searchByParams s.store (some rt) (parseSearchString c) = [] →
      conditional_update s rt d c =
        ({ (create_resource s d).1 with created := some true },
         (create_resource s d).2) ∧
      (conditional_update s rt d c).1.created = some true) ∧
    (∀ m, searchByParams s.store (some rt) (parseSearchString c) = [m] →
      conditional_update s rt d c =
        ({ (update_resource s rt m.rid d).1 with created := some false },
         (update_resource s rt m.rid d).2)) ∧
    (2 ≤ (searchByParams s.store (some rt) (parseSearchString c)).length →
      (conditional_update s rt d c).1 =
        multiMatchOutcome
          (searchByParams s.store (some rt) (parseSearchString c)).length ∧
      (conditional_update s rt d c).2 = s ∧
      ∀ k i, read_resource (conditional_update s rt d c).2 k i =
        read_resource s k i) := by
  refine ⟨fun h => ?_, fun m h => ?_, fun h => ?_⟩
  · simp [conditional_update, h]
  · simp [conditional_update, h]
  · rcases hL : searchByParams s.store (some rt) (parseSearchString c) with
      _ | ⟨a, _ | ⟨b, l⟩⟩
    · rw [hL] at h; simp at h
    · rw [hL] at h; simp at h
    · simp [conditional_update, hL]

/-- C1 witness: with two stored Patients matching `identifier=sysA|V`, the
conditional update returns the multiple-matches outcome and leaves the
server state untouched. -/
theorem conditional_update_cases_witness :
    (conditional_update twoMatchState "Patient" patientB "identifier=sysA|V").1 =
      multiMatchOutcome
        (searchByParams twoMatchState.store (some "Patient")
          (parseSearchString "identifier=sysA|V")).length ∧
    (conditional_update twoMatchState "Patient" patientB "identifier=sysA|V").2 =
      twoMatchState :=
  ⟨((conditional_update_cases twoMatchState "Patient" patientB
      "identifier=sysA|V").2.2 (by decide)).1,
   ((conditional_update_cases twoMatchState "Patient" patientB
      "identifier=sysA|V").2.2 (by decide)).2.1⟩

/-- C2: `conditional_create` is idempotent — with at least one match it
returns the first match unmodified with `created = false` and no mutation;
with no match it delegates to `create_resource`, and re-submitting the same
create (with criteria the stored record satisfies) surfaces the same stored
record with `created = false`, so only the first call reports
`created = true` and both calls expose the same stored id. -/
theorem conditional_create_props (s : ServerState) (d : ResourceData) (c : String) :
    (∀ e rest,
      searchByParams s.store d.resourceType (parseSearchString c) = e :: rest →
      conditional_create s d c =
        ({ severity := "information"
           code := "informational"
           diagnostics := ["Resource already exists, not created"]
           location := some (locationOf s.baseUrl d.resourceType e.rid)
           created_resource := some e.data
           created := some false }, s)) ∧
    (searchByParams s.store d.resourceType (parseSearchString c) = [] →
     resourceMatchesParams (stampedData s d).data (parseSearchString c) = true →
      conditional_create s d c = create_resource s d ∧
      (conditional_create s d c).1.created = some true ∧
      (conditional_create s d c).1.created_resource = some (stampedData s d).data ∧
      (conditional_create (conditional_create s d c).2 d c).1.created = some false ∧
      (conditional_create (conditional_create s d c).2 d c).1.created_resource =
        some (stampedData s d).data ∧
      (conditional_create (conditional_create s d c).2 d c).2 =
        (conditional_create s d c).2) := by
  refine ⟨fun e rest h => ?_, fun h0 hm => ?_⟩
  · simp [conditional_create, h]
  · have hcc : conditional_create s d c = create_resource s d := by
      simp [conditional_create, h0]
    have hstore : (create_resource s d).2.store =
        storePut s.store (stampedData s d).data.resourceType
          (stampedData s d).rid (stampedData s d) := rfl
    have hrt : (stampedData s d).data.resourceType = d.resourceType :=
      stampData_resourceType d s.clock s.nextId
    have hsearch1 : searchByParams (create_resource s d).2.store d.resourceType
        (parseSearchString c) = [stampedData s d] := by
      rw [hstore, hrt]
      exact searchByParams_putSelf s.store d.resourceType _ _ _ h0 hm
    rw [hcc]
    refine ⟨rfl, rfl, rfl, ?_, ?_, ?_⟩ <;> simp [conditional_create, hsearch1]

/-- C2 witness: submitting the same Patient create twice against a fresh
server with criteria `identifier=sysA|V` (which the created record
satisfies) answers `created = true` then `created = false`, surfacing the
same stored record both times without a second mutation. -/
theorem conditional_create_props_witness :
    (conditional_create initState patientA "identifier=sysA|V").1.created = some true ∧
    (conditional_create (conditional_create initState patientA "identifier=sysA|V").2
        patientA "identifier=sysA|V").1.created = some false ∧
    (conditional_create (conditional_create initState patientA "identifier=sysA|V").2
        patientA "identifier=sysA|V").1.created_resource =
      some (stampedData initState patientA).data ∧
    (conditional_create (conditional_create initState patientA "identifier=sysA|V").2
        patientA "identifier=sysA|V").2 =
      (conditional_create initState patientA "identifier=sysA|V").2 :=
  have h := (conditional_create_props initState patientA "identifier=sysA|V").2
    (by decide) (by decide)
  ⟨h.2.1, h.2.2.2.1, h.2.2.2.2.1, h.2.2.2.2.2⟩

/-- C3: `process_bundle` answers one response per entry in submission
order; its loop decomposes sequentially over any split of the entry list
(so a failure at position k never aborts the following entries); a
malformed PUT url yields a `400` entry leaving the state untouched; and any
raised failure in one entry is caught and converted to a `500` entry
carrying the failure's message. -/
theorem process_bundle_isolation :
    (∀ (s : ServerState) (b : BundleRequest),
      (process_bundle s b).1.entries.length = b.entries.length) ∧
    (∀ (s : ServerState) (pre post : List BundleEntry),
      processEntries s (pre ++ post) =
        ((processEntries s pre).1 ++
           (processEntries (processEntries s pre).2 post).1,
         (processEntries (processEntries s pre).2 post).2)) ∧
    (∀ (s : ServerState) (v : ResourceVal),
      processEntry s { method := some "PUT", url := "", ifNoneExist := none,
                       resource := v } =
        ({ status := "400 Bad Request", location := none,
           outcome := invalidUrlOutcome "" }, s)) ∧
    (∀ (s : ServerState) (e : BundleEntry) (msg : String),
      tryProcessEntry s e = .error msg →
        processEntry s e =
          ({ status := "500 Internal Server Error", location := none,
             outcome := exceptionOutcome msg }, s)) := by
  refine ⟨fun s b => processEntries_length b.entries s,
          fun s pre post => processEntries_append pre post s,
          fun s v => rfl,
          fun s e msg h => ?_⟩
  simp [processEntry, h]

/-- C3 witness: a POST entry whose resource is not a mapping raises, and
the loop converts the failure into a `500` entry carrying its message. -/
theorem process_bundle_isolation_witness :
    processEntry initState
        { method := some "POST", url := "", ifNoneExist := none,
          resource := ResourceVal.bad "boom" } =
      ({ status := "500 Internal Server Error", location := none,
         outcome := exceptionOutcome "boom" }, initState) :=
  process_bundle_isolation.2.2.2 initState
    { method := some "POST", url := "", ifNoneExist := none,
      resource := ResourceVal.bad "boom" } "boom" rfl

/-- C6: a resource matches an identifier criteria exactly when some
submitted token (OR across repeats) has some `identifier` entry with an
equal value whose system matches when the token carries one; concretely, a
resource with identifier `[{system: sysA, value: V}]` matches the queries
`identifier=sysA|V` and `identifier=V` but not `identifier=sysB|V`. -/
theorem identifier_matching_spec (r : ResourceData) (vals : List String) :
    (matchesIdentifierSearch r vals = true ↔
      ∃ tok ∈ vals, ∃ ent ∈ r.identifier,
        ent.value = some (parseIdentToken tok).2 ∧
        ((parseIdentToken tok).1 = none ∨
          ent.system = (parseIdentToken tok).1)) ∧
    resourceMatchesParams patientA (parseSearchString "identifier=sysA|V") = true ∧
    resourceMatchesParams patientA (parseSearchString "identifier=V") = true ∧
    resourceMatchesParams patientA (parseSearchString "identifier=sysB|V") = false := by
  refine ⟨?_, by decide, by decide, by decide⟩
  simp [matchesIdentifierSearch, List.any_eq_true, Bool.and_eq_true, beq_iff_eq,
        Bool.or_eq_true, Option.isNone_iff_eq_none]

/-- C7: every resource matches an empty criteria map (an empty-parameter
search returns the whole partition), while any criteria containing a
parameter name other than `identifier` rejects every resource, so such a
search returns zero matches regardless of the store's contents. -/
theorem matching_policy (r : ResourceData) (ps : Params) (st : Store)
    (kind : Option String) :
    resourceMatchesParams r [] = true ∧
    searchByParams st kind [] = (storeGet st kind).map Prod.snd ∧
    ((∃ p ∈ ps, p.1 ≠ "identifier") →
      (∀ rr : ResourceData, resourceMatchesParams rr ps = false) ∧
      searchByParams st kind ps = []) := by
  refine ⟨rfl, rfl, fun hex => ?_⟩
  obtain ⟨p, hp, hne⟩ := hex
  have hall : ∀ rr : ResourceData, resourceMatchesParams rr ps = false := by
    intro rr
    cases hres : resourceMatchesParams rr ps with
    | false => rfl
    | true =>
      exfalso
      unfold resourceMatchesParams at hres
      have h2 := List.all_eq_true.mp hres p hp
      rw [Bool.and_eq_true] at h2
      exact hne (beq_iff_eq.mp h2.1)
  have hps : ps.isEmpty = false := by
    cases ps with
    | nil => simp at hp
    | cons a l => rfl
  refine ⟨hall, ?_⟩
  simp only [searchByParams, hps, Bool.false_eq_true, if_false]
  exact List.filter_eq_nil_iff.mpr (fun x _ => by simp [hall x.data])

/-- C7 witness: a search on the unsupported parameter `name` rejects a
resource and returns zero matches over a populated store. -/
theorem matching_policy_witness :
    (∀ rr : ResourceData, resourceMatchesParams rr [("name", ["Smith"])] = false) ∧
    searchByParams twoMatchState.store (some "Patient") [("name", ["Smith"])] = [] :=
  (matching_policy patientA [("name", ["Smith"])] twoMatchState.store
      (some "Patient")).2.2
    ⟨("name", ["Smith"]), by decide, by decide⟩

/-- C8 counterexample: a batch bundle whose single entry is a GET search
over a store with matching resources does not get a searchset embedded —
`process_bundle` answers a `404 Not Found` entry with a `not-supported`
outcome and performs no search. -/
theorem bundle_get_cex :
    process_bundle twoMatchState getBundle =
      ({ resourceType := "Bundle", type := "batch-response"
         entries := [{ status := "404 Not Found", location := none,
                       outcome := notSupportedOutcome "GET" }] }, twoMatchState) := by
  decide

/-- C8 (amended): every bundle entry whose method resolves to GET falls
into the unsupported-method branch — it yields a `404 Not Found` entry with
a `not-supported` outcome and leaves the server state unchanged; GET-in-
bundle search is not implemented in this repository variant. -/
theorem bundle_get_not_supported (s : ServerState) (e : BundleEntry)
    (h : upperStr (e.method.getD "GET") = "GET") :
    processEntry s e =
      ({ status := "404 Not Found", location := none,
         outcome := notSupportedOutcome "GET" }, s) := by
  simp only [processEntry, tryProcessEntry, h]
  rfl

/-- C8 witness: a lower-case `get` search entry over a populated store is
answered with the `404` not-supported response and no state change. -/
theorem bundle_get_not_supported_witness :
    processEntry twoMatchState
        { method := some "get", url := "Patient?identifier=sysA|V" } =
      ({ status := "404 Not Found", location := none,
         outcome := notSupportedOutcome "GET" }, twoMatchState) :=
  bundle_get_not_supported twoMatchState
    { method := some "get", url := "Patient?identifier=sysA|V" } (by decide)

/-- C9: the multiple-matches outcome carries no `created`, `location` or
`created_resource` key, so the status a bundle PUT entry computes from
`result.get("created", False)` is `200 OK`, and the numeric status of the
HTTP `PUT /Kind?criteria` branch is `200` — not an error status. -/
theorem multi_match_default_status (s : ServerState) (rt : String)
    (d : ResourceData) (c : String) (e : BundleEntry)
    (hn : 2 ≤ (searchByParams s.store (some rt) (parseSearchString c)).length) :
    (conditional_update s rt d c).1.created = none ∧
    (conditional_update s rt d c).1.location = none ∧
    (conditional_update s rt d c).1.created_resource = none ∧
    (handlePutConditionalUpdate s rt d c).1 = 200 ∧
    (upperStr (e.method.getD "GET") = "PUT" →
     containsChar '?' e.url = true →
     (splitChar '/' (stripSlashes e.url)).headD "" = rt →
     afterFirstQ e.url = c →
      processEntry s e =
        ({ status := "200 OK", location := none,
           outcome := multiMatchOutcome
             (searchByParams s.store (some rt) (parseSearchString c)).length },
         s)) := by
  rcases hL : searchByParams s.store (some rt) (parseSearchString c) with
    _ | ⟨a, _ | ⟨b, l⟩⟩
  · rw [hL] at hn; simp at hn
  · rw [hL] at hn; simp at hn
  · refine ⟨?_, ?_, ?_, ?_, fun h1 h2 h3 h4 => ?_⟩
    · simp [conditional_update, hL, multiMatchOutcome]
    · simp [conditional_update, hL, multiMatchOutcome]
    · simp [conditional_update, hL, multiMatchOutcome]
    · simp [handlePutConditionalUpdate, conditional_update, hL, multiMatchOutcome]
    · simp only [processEntry, tryProcessEntry, h1, h2, h3, h4]
      simp [conditional_updateE, hL, multiMatchOutcome, Except.map]

/-- C9 witness: with two matching Patients, the direct conditional update
surfaces no `created` key, the HTTP handler answers `200`, and a bundle PUT
entry at `Patient/x?identifier=sysA|V` is answered `200 OK` with the
multiple-matches outcome and no mutation. -/
theorem multi_match_default_status_witness :
    (conditional_update twoMatchState "Patient" patientB
        "identifier=sysA|V").1.created = none ∧
    (handlePutConditionalUpdate twoMatchState "Patient" patientB
        "identifier=sysA|V").1 = 200 ∧
    processEntry twoMatchState
        { method := some "PUT", url := "Patient/x?identifier=sysA|V",
          resource := ResourceVal.obj patientB } =
      ({ status := "200 OK", location := none,
         outcome := multiMatchOutcome
           (searchByParams twoMatchState.store (some "Patient")
             (parseSearchString "identifier=sysA|V")).length }, twoMatchState) :=
  have h := multi_match_default_status twoMatchState "Patient" patientB
    "identifier=sysA|V"
    { method := some "PUT", url := "Patient/x?identifier=sysA|V",
      resource := ResourceVal.obj patientB } (by decide)
  ⟨h.1, h.2.2.2.1, h.2.2.2.2 (by decide) (by decide) (by decide) (by decide)⟩

end MockFHIR
